import Mathlib

/-!
Verification of the TechMart storefront core (src/main.py).

The Python program keeps all state in in-memory dictionaries
(`st.session_state.users / products / orders`, plus one cart dictionary per
user under the key `f"{user}_cart"`, and `current_user`).  This file embeds
those dictionaries as association lists in insertion order, and embeds each
state-mutating operation of the program as a Lean function, translated
directly from the corresponding Python code.  UI-only concerns (markup,
images, charts) are dropped; where a mutation is guarded by the shape of the
UI (for example a button that is only rendered under a condition), the guard
is embedded as the corresponding condition on the state.
-/

namespace TechMart

/-- Python dict with string keys, kept in insertion order. -/
abbrev Dict (V : Type) : Type := List (String × V)

/-- Dictionary lookup, `d.get(key)` / `d[key]`: first entry whose key matches. -/
def lookup {V : Type} : Dict V → String → Option V
  | [], _ => none
  | (k, v) :: rest, key => if k = key then some v else lookup rest key

/-- Dictionary assignment `d[key] = val`: replace the entry if the key is
present, append otherwise. -/
def setKey {V : Type} : Dict V → String → V → Dict V
  | [], key, val => [(key, val)]
  | (k, v) :: rest, key, val =>
      if k = key then (k, val) :: rest else (k, v) :: setKey rest key val

/-- Dictionary deletion `del d[key]`. -/
def eraseKey {V : Type} : Dict V → String → Dict V
  | [], _ => []
  | (k, v) :: rest, key => if k = key then rest else (k, v) :: eraseKey rest key

/-- Membership test `key in d`. -/
def hasKey {V : Type} (d : Dict V) (key : String) : Bool :=
  (lookup d key).isSome

/-- Total quantity recorded for a key in a quantity dictionary. -/
def qtyTotal : Dict Nat → String → Nat
  | [], _ => 0
  | (k, q) :: rest, key => (if k = key then q else 0) + qtyTotal rest key

/-- Order status values used by the program (plain strings in the source). -/
inductive Status where
  | Pending
  | Processing
  | Shipped
  | Delivered
  | Cancelled
deriving DecidableEq

/-- Product record, from the entries of `st.session_state.products`.
Prices and ratings are Python floats, embedded as rationals; `stock` is a
Python int, embedded as an integer because the program itself never clamps
it at zero. -/
structure Product where
  name : String
  price : ℚ
  category : String
  description : String
  stock : Int
  image : String
  rating : ℚ
  reviews : Nat
  specs : List String
deriving DecidableEq

/-- Account record, from the entries of `st.session_state.users`
(`register_user`, line 1407).  Timestamps are abstracted to naturals. -/
structure Account where
  password : String
  name : String
  createdAt : Nat
  isAdmin : Bool
deriving DecidableEq

/-- Order record, from the dictionaries built in `create_order` (line 1447). -/
structure Order where
  id : String
  user : String
  items : Dict Nat
  total : ℚ
  status : Status
  createdAt : Nat
  estimatedDelivery : Nat
deriving DecidableEq

/-- The whole mutable session state of the program. -/
structure State where
  users : Dict Account
  products : Dict Product
  orders : Dict Order
  carts : Dict (Dict Nat)
  currentUser : Option String
deriving DecidableEq

/-- View of an Except value as a sum, for deciding equality. -/
def exceptToSum {e a : Type} : Except e a → e ⊕ a
  | Except.error x => Sum.inl x
  | Except.ok x => Sum.inr x

instance {e a : Type} [DecidableEq e] [DecidableEq a] :
    DecidableEq (Except e a) := fun x y =>
  decidable_of_iff (exceptToSum x = exceptToSum y)
    (by cases x <;> cases y <;> simp [exceptToSum])

/-- Error kinds surfaced by the program as UI error messages. -/
inductive StoreError where
  | NotFound
  | InsufficientStock
  | EmptyCart
  | InvalidTransition
  | AlreadyExists
  | Forbidden
  | NotLoggedIn
deriving DecidableEq

/-- Bootstrap admin address hard-coded at line 1413 and line 2242. -/
def bootstrapEmail : String := "admin@techmart.com"

/-- Stands in for `hashlib.sha256(password.encode()).hexdigest()`
(`hash_password`, line 1397); no claim depends on the digest function
itself, only on equality of digests of equal inputs. -/
def hashPassword (password : String) : String :=
  "sha256$" ++ password

/-- Embeds `authenticate_user` (line 1401). -/
def authenticateUser (s : State) (email password : String) : Bool :=
  match lookup s.users email with
  | some a => a.password == hashPassword password
  | none => false

/-- Embeds `register_user` (line 1407); the Bool is its return value. -/
def registerUser (s : State) (now : Nat) (email password nm : String) :
    State × Bool :=
  match lookup s.users email with
  | none =>
      let a : Account :=
        { password := hashPassword password
          name := nm
          createdAt := now
          isAdmin := email == bootstrapEmail }
      ({ s with users := setKey s.users email a }, true)
  | some _ => (s, false)

/-- Cart dictionary stored for a user under the session key
`f"{user}_cart"`; a missing key reads as the empty dict. -/
def userCart (s : State) (u : String) : Dict Nat :=
  (lookup s.carts u).getD []

/-- Embeds `get_user_cart` (line 1431). -/
def getUserCart (s : State) : Dict Nat :=
  match s.currentUser with
  | some u => userCart s u
  | none => []

/-- Embeds `add_to_cart` (line 1419): increments an existing entry or
inserts a new one; performs no validation of its own. -/
def addToCart (s : State) (productId : String) (quantity : Nat) : State :=
  match s.currentUser with
  | none => s
  | some u =>
      let cart := userCart s u
      let cart2 :=
        match lookup cart productId with
        | some q => setKey cart productId (q + quantity)
        | none => setKey cart productId quantity
      { s with carts := setKey s.carts u cart2 }

/-- Embeds the product-card add-to-cart button (`render_product_card`,
lines 1598-1605): a card exists only for a catalog product, the click is
rejected without a logged-in user, and the requested quantity is checked
against current stock before `add_to_cart` runs. -/
def addToCartButton (s : State) (productId : String) (quantity : Nat) :
    Except StoreError State :=
  match lookup s.products productId with
  | none => Except.error StoreError.NotFound
  | some p =>
      match s.currentUser with
      | none => Except.error StoreError.NotLoggedIn
      | some _ =>
          if (quantity : Int) ≤ p.stock then
            Except.ok (addToCart s productId quantity)
          else
            Except.error StoreError.InsufficientStock

/-- Summation core of `calculate_cart_total` (line 1438): entries whose
product id is not in the catalog contribute nothing. -/
def cartTotal (products : Dict Product) : Dict Nat → ℚ
  | [] => 0
  | (pid, qty) :: rest =>
      (match lookup products pid with
       | some p => p.price * (qty : ℚ)
       | none => 0) + cartTotal products rest

/-- Embeds `calculate_cart_total` (line 1438). -/
def calculateCartTotal (s : State) : ℚ :=
  cartTotal s.products (getUserCart s)

/-- Embeds the stock-decrement loop of `create_order` (lines 1466-1469):
each cart entry whose product id is in the catalog has its quantity
subtracted from that product record, with no bound check. -/
def decStock : Dict Product → Dict Nat → Dict Product
  | products, [] => products
  | products, (pid, qty) :: rest =>
      decStock
        (match lookup products pid with
         | some p => setKey products pid { p with stock := p.stock - (qty : Int) }
         | none => products)
        rest

/-- Embeds the stock-restore loop of the admin cancel button
(lines 2194-2197): each order item whose product id is still in the
catalog has its quantity added back. -/
def incStock : Dict Product → Dict Nat → Dict Product
  | products, [] => products
  | products, (pid, qty) :: rest =>
      incStock
        (match lookup products pid with
         | some p => setKey products pid { p with stock := p.stock + (qty : Int) }
         | none => products)
        rest

/-- Embeds `create_order` (line 1447).  The order id comes from
`uuid.uuid4()` in the source and is taken as a parameter here; `now`
abstracts `datetime.now()`.  Returns the new state and the returned id. -/
def createOrder (s : State) (orderId : String) (now : Nat) :
    State × Option String :=
  match s.currentUser with
  | none => (s, none)
  | some u =>
      let cart := userCart s u
      if cart = [] then (s, none)
      else
        let order : Order :=
          { id := orderId
            user := u
            items := cart
            total := calculateCartTotal s
            status := Status.Pending
            createdAt := now
            estimatedDelivery := now + 7 }
        ({ s with
            products := decStock s.products cart
            orders := setKey s.orders orderId order
            carts := setKey s.carts u [] }, some orderId)

/-- Embeds the admin "Update Status" button (lines 2174-2186): the selectbox
offers all five statuses for an existing order and the click stores the
selection with no transition check. -/
def updateOrderStatus (s : State) (orderId : String) (newStatus : Status) :
    State :=
  match lookup s.orders orderId with
  | none => s
  | some o => { s with orders := setKey s.orders orderId { o with status := newStatus } }

/-- Embeds the admin "Cancel Order" button (lines 2192-2201): rendered only
while the status is Pending or Processing; restores stock for items whose
product still exists, then stores status Cancelled. -/
def cancelOrder (s : State) (orderId : String) : State :=
  match lookup s.orders orderId with
  | none => s
  | some o =>
      if o.status = Status.Pending ∨ o.status = Status.Processing then
        { s with
            products := incStock s.products o.items
            orders := setKey s.orders orderId { o with status := Status.Cancelled } }
      else s

/-- Item-accumulation loop of the reorder button (lines 1874-1879): each
snapshot entry whose product still exists is added to the cart, with no
stock check. -/
def addItems (products : Dict Product) : Dict Nat → Dict Nat → Dict Nat
  | cart, [] => cart
  | cart, (pid, qty) :: rest =>
      addItems products
        (if hasKey products pid then
           match lookup cart pid with
           | some q => setKey cart pid (q + qty)
           | none => setKey cart pid qty
         else cart)
        rest

/-- Embeds the "Reorder Items" button (`render_orders`, lines 1868-1882). -/
def reorder (s : State) (orderId : String) : State :=
  match s.currentUser, lookup s.orders orderId with
  | some u, some o =>
      { s with carts := setKey s.carts u (addItems s.products (userCart s u) o.items) }
  | _, _ => s

/-- Embeds the cart-page "Remove" button (lines 1726-1729): rendered only
for a cart entry whose product is still in the catalog. -/
def removeFromCart (s : State) (productId : String) : State :=
  match s.currentUser with
  | none => s
  | some u =>
      if hasKey s.products productId && hasKey (userCart s u) productId then
        { s with carts := setKey s.carts u (eraseKey (userCart s u) productId) }
      else s

/-- Embeds the cart-page quantity "Update" button (lines 1733-1744): the
number input is bounded by 1 and the product's current stock, and the
button only appears when the value differs from the stored quantity. -/
def setCartQty (s : State) (productId : String) (newQty : Nat) : State :=
  match s.currentUser with
  | none => s
  | some u =>
      match lookup s.products productId, lookup (userCart s u) productId with
      | some p, some q =>
          if 1 ≤ newQty ∧ (newQty : Int) ≤ p.stock ∧ newQty ≠ q then
            { s with carts := setKey s.carts u (setKey (userCart s u) productId newQty) }
          else s
      | _, _ => s

/-- Admin gate of `render_admin` (lines 1899-1902). -/
def isAdminUser (s : State) : Bool :=
  match s.currentUser with
  | some u =>
      match lookup s.users u with
      | some a => a.isAdmin
      | none => false
  | none => false

/-- Embeds the admin "Update Stock" button (lines 2092-2097): the number
input has a floor of zero, so the new value is a natural number. -/
def updateStockButton (s : State) (productId : String) (newStock : Nat) : State :=
  match lookup s.products productId with
  | none => s
  | some p => { s with products := setKey s.products productId { p with stock := (newStock : Int) } }

/-- Embeds the admin "Delete Product" button (lines 2129-2132). -/
def deleteProduct (s : State) (productId : String) : State :=
  { s with products := eraseKey s.products productId }

/-- Python `f"{n:03d}"`: decimal with zero-padding to width three. -/
def pad3 (n : Nat) : String :=
  if n < 10 then "00" ++ toString n
  else if n < 100 then "0" ++ toString n
  else toString n

/-- Id assigned by the add-product form (line 2038):
`f"P{len(st.session_state.products) + 1:03d}"`. -/
def newProductId (products : Dict Product) : String :=
  "P" ++ pad3 (products.length + 1)

/-- Embeds the admin "Add Product" form submission (lines 2036-2063): the
required fields must be truthy (price zero is falsy in Python), the stock
input has a floor of zero, and the record is stored under the id computed
from the current product count. -/
def addProduct (s : State) (nm : String) (price : ℚ) (category description : String)
    (stock : Nat) (image : String) (specs : List String) : State :=
  if nm ≠ "" ∧ price ≠ 0 ∧ category ≠ "" ∧ description ≠ "" then
    let p : Product :=
      { name := nm
        price := price
        category := category
        description := description
        stock := (stock : Int)
        image := image
        rating := 4
        reviews := 0
        specs := specs }
    { s with products := setKey s.products (newProductId s.products) p }
  else s

/-- Embeds the admin "Make Admin" button (lines 2235-2238); the selectbox
only offers registered users. -/
def makeAdmin (s : State) (email : String) : State :=
  match lookup s.users email with
  | none => s
  | some a => { s with users := setKey s.users email { a with isAdmin := true } }

/-- Embeds the admin "Remove Admin" button (lines 2241-2247): the bootstrap
account is rejected with an error message before any mutation; the
selectbox only offers registered users, so an unknown email is a no-op. -/
def removeAdmin (s : State) (email : String) : Except StoreError State :=
  if email = bootstrapEmail then Except.error StoreError.Forbidden
  else
    match lookup s.users email with
    | none => Except.ok s
    | some a => Except.ok { s with users := setKey s.users email { a with isAdmin := false } }

/-- Embeds the login form submission (lines 1520-1526). -/
def login (s : State) (email password : String) : State :=
  if authenticateUser s email password then { s with currentUser := some email }
  else s

/-- Embeds the logout button (lines 1509-1511). -/
def logout (s : State) : State :=
  { s with currentUser := none }

/-- One user- or admin-triggered mutation of the session state. -/
inductive Op where
  | register (now : Nat) (email password nm : String)
  | login (email password : String)
  | logout
  | addCart (productId : String) (quantity : Nat)
  | removeCart (productId : String)
  | setQty (productId : String) (quantity : Nat)
  | checkout (orderId : String) (now : Nat)
  | setStatus (orderId : String) (newStatus : Status)
  | cancel (orderId : String)
  | reorderOp (orderId : String)
  | adminStock (productId : String) (newStock : Nat)
  | adminCreate (nm : String) (price : ℚ) (category description : String)
      (stock : Nat) (image : String) (specs : List String)
  | adminDelete (productId : String)
  | adminGrant (email : String)
  | adminRevoke (email : String)

/-- Applies one operation the way the running program would: operations the
UI rejects (failed validation, missing admin rights) leave the state
unchanged. -/
def applyOp (s : State) : Op → State
  | Op.register now email password nm => (registerUser s now email password nm).1
  | Op.login email password => login s email password
  | Op.logout => logout s
  | Op.addCart pid q =>
      match addToCartButton s pid q with
      | Except.ok s2 => s2
      | Except.error _ => s
  | Op.removeCart pid => removeFromCart s pid
  | Op.setQty pid q => setCartQty s pid q
  | Op.checkout oid now => (createOrder s oid now).1
  | Op.setStatus oid ns => if isAdminUser s then updateOrderStatus s oid ns else s
  | Op.cancel oid => if isAdminUser s then cancelOrder s oid else s
  | Op.reorderOp oid => reorder s oid
  | Op.adminStock pid n => if isAdminUser s then updateStockButton s pid n else s
  | Op.adminCreate nm price cat desc stock img specs =>
      if isAdminUser s then addProduct s nm price cat desc stock img specs else s
  | Op.adminDelete pid => if isAdminUser s then deleteProduct s pid else s
  | Op.adminGrant email => if isAdminUser s then makeAdmin s email else s
  | Op.adminRevoke email =>
      if isAdminUser s then
        match removeAdmin s email with
        | Except.ok s2 => s2
        | Except.error _ => s
      else s

/-- Runs a sequence of operations from a starting state. -/
def run (s : State) (ops : List Op) : State :=
  ops.foldl applyOp s

/-- Total quantity of a product over the orders that are not cancelled. -/
def nonCancelledQty : Dict Order → String → Nat
  | [], _ => 0
  | (_, o) :: rest, pid =>
      (if o.status = Status.Cancelled then 0 else qtyTotal o.items pid)
        + nonCancelledQty rest pid

/-- The bootstrap account, when registered, holds the admin flag. -/
def bootstrapOK (s : State) : Prop :=
  ∀ a, lookup s.users bootstrapEmail = some a → a.isAdmin = true

/-- The order record built by `create_order` (lines 1456-1464), named so
that statements can refer to it. -/
def checkoutOrder (s : State) (u oid : String) (now : Nat) : Order :=
  { id := oid
    user := u
    items := userCart s u
    total := calculateCartTotal s
    status := Status.Pending
    createdAt := now
    estimatedDelivery := now + 7 }

/-- Sample product record for concrete scenarios, in the shape of the
seeded catalog entries (lines 281-291). -/
def widget (stockInit : Int) : Product :=
  { name := "Widget"
    price := 10
    category := "Electronics"
    description := "A sample widget."
    stock := stockInit
    image := "box"
    rating := 4
    reviews := 5
    specs := [] }

/-- Sample product with a chosen name. -/
def namedWidget (nm : String) (stockInit : Int) : Product :=
  { widget stockInit with name := nm }

/-- Sample account holding the admin flag, as the bootstrap registration
creates it. -/
def rootAcct : Account :=
  { password := hashPassword "root"
    name := "Root"
    createdAt := 0
    isAdmin := true }

/-- Sample order record for concrete scenarios. -/
def pastOrder (oid u : String) (items : Dict Nat) (total : ℚ)
    (st : Status) : Order :=
  { id := oid
    user := u
    items := items
    total := total
    status := st
    createdAt := 0
    estimatedDelivery := 7 }

/-- Fresh store with one product and nobody registered. -/
def shopStart (stockInit : Int) : State :=
  { users := []
    products := [("P001", widget stockInit)]
    orders := []
    carts := []
    currentUser := none }

/-- Store with no products and nobody registered. -/
def emptyShop : State :=
  { users := []
    products := []
    orders := []
    carts := []
    currentUser := none }

/-- Register, log in, add the single product twice, check out. -/
def checkoutTrace (q1 q2 : Nat) : List Op :=
  [Op.register 0 "u@example.com" "secret" "Uma",
   Op.login "u@example.com" "secret",
   Op.addCart "P001" q1,
   Op.addCart "P001" q2,
   Op.checkout "ord1" 1]

/-- Check out three units, then have the admin set the order status to
Cancelled through the status selectbox (not the cancel button). -/
def conservationTrace : List Op :=
  [Op.register 0 bootstrapEmail "root" "Root",
   Op.register 0 "u@example.com" "secret" "Uma",
   Op.login "u@example.com" "secret",
   Op.addCart "P001" 3,
   Op.checkout "ord1" 1,
   Op.logout,
   Op.login bootstrapEmail "root",
   Op.setStatus "ord1" Status.Cancelled]

/-- Check out one unit and walk the order forward to Delivered. -/
def progressTrace : List Op :=
  [Op.register 0 bootstrapEmail "root" "Root",
   Op.register 0 "u@example.com" "secret" "Uma",
   Op.login "u@example.com" "secret",
   Op.addCart "P001" 1,
   Op.checkout "ord1" 1,
   Op.logout,
   Op.login bootstrapEmail "root",
   Op.setStatus "ord1" Status.Processing,
   Op.setStatus "ord1" Status.Shipped,
   Op.setStatus "ord1" Status.Delivered]

/-- Catalog of three products with consecutive ids, as seeded. -/
def threeProducts : Dict Product :=
  [("P001", namedWidget "Widget" 5),
   ("P002", namedWidget "Doohickey" 5),
   ("P003", namedWidget "Thingamajig" 5)]

/-- Store with three products and the bootstrap admin logged in. -/
def adminShop : State :=
  { users := [(bootstrapEmail, rootAcct)]
    products := threeProducts
    orders := []
    carts := []
    currentUser := some bootstrapEmail }

/-- Store with one five-unit product and a logged-in user whose cart is
empty. -/
def cartDemoStart : State :=
  { users := []
    products := [("P001", widget 5)]
    orders := []
    carts := []
    currentUser := some "u@example.com" }

/-- Pending order of three units against a product with two in stock. -/
def c5Order : Order :=
  pastOrder "ord1" "u@example.com" [("P001", 3)] 30 Status.Pending

/-- Store holding that pending order. -/
def c5State : State :=
  { users := []
    products := [("P001", widget 2)]
    orders := [("ord1", c5Order)]
    carts := []
    currentUser := none }

/-- Store with a delivered five-unit order against a product that now has
only two units in stock, and the buyer logged in with an empty cart. -/
def reorderDemo : State :=
  { users := []
    products := [("P001", widget 2)]
    orders := [("ord1", pastOrder "ord1" "u@example.com" [("P001", 5)] 50 Status.Delivered)]
    carts := []
    currentUser := some "u@example.com" }

/-- Store where the logged-in user's cart still holds an id ("GONE") whose
product is no longer in the catalog. -/
def staleCartShop : State :=
  { users := []
    products := [("P001", widget 5)]
    orders := []
    carts := [("u@example.com", [("P001", 2), ("GONE", 4)])]
    currentUser := some "u@example.com" }

/-- Looking up the key just assigned returns the assigned value. -/
theorem lookup_setKey_self {V : Type} (d : Dict V) (k : String) (v : V) :
    lookup (setKey d k v) k = some v := by
  induction d with
  | nil => simp [setKey, lookup]
  | cons e rest ih =>
      obtain ⟨k2, v2⟩ := e
      by_cases h : k2 = k
      · simp [setKey, h, lookup]
      · simp [setKey, h, lookup, ih]

/-- Assignment to one key does not change lookups of other keys. -/
theorem lookup_setKey_ne {V : Type} (d : Dict V) (k q : String) (v : V)
    (h : q ≠ k) : lookup (setKey d k v) q = lookup d q := by
  induction d with
  | nil =>
      have hk : ¬ k = q := fun hh => h hh.symm
      simp [setKey, lookup, hk]
  | cons e rest ih =>
      obtain ⟨k2, v2⟩ := e
      by_cases h2 : k2 = k
      · subst h2
        have hk : ¬ k2 = q := fun hh => h hh.symm
        simp [setKey, lookup, hk]
      · by_cases h3 : k2 = q <;> simp [setKey, lookup, h, h2, h3, ih]

/-- A key that is absent contributes no quantity. -/
theorem qtyTotal_eq_zero (d : Dict Nat) (pid : String)
    (h : lookup d pid = none) : qtyTotal d pid = 0 := by
  induction d with
  | nil => rfl
  | cons e rest ih =>
      obtain ⟨k, q⟩ := e
      by_cases hk : k = pid
      · subst hk; simp [lookup] at h
      · simp [lookup, hk] at h
        simp [qtyTotal, hk, ih h]

/-- Effect of the checkout stock-decrement loop on a single catalog record:
the stock drops by the total cart quantity of that id, and ids outside the
catalog stay outside. -/
theorem lookup_decStock (items : Dict Nat) (products : Dict Product)
    (pid : String) :
    lookup (decStock products items) pid
      = (lookup products pid).map
          (fun p => { p with stock := p.stock - (qtyTotal items pid : Int) }) := by
  induction items generalizing products with
  | nil => cases h : lookup products pid <;> simp [decStock, qtyTotal, h]
  | cons e rest ih =>
      obtain ⟨k, q⟩ := e
      simp only [decStock]
      rw [ih]
      cases hk : lookup products k with
      | none =>
          by_cases hkp : k = pid
          · subst hkp
            simp [hk, qtyTotal]
          · simp [qtyTotal, hkp]
      | some p =>
          by_cases hkp : k = pid
          · subst hkp
            simp [lookup_setKey_self, hk, qtyTotal, sub_sub, Nat.cast_add]
          · have hne : pid ≠ k := fun hh => hkp hh.symm
            simp [lookup_setKey_ne _ _ _ _ hne, qtyTotal, hkp]

/-- Effect of the cancel stock-restore loop on a single catalog record. -/
theorem lookup_incStock (items : Dict Nat) (products : Dict Product)
    (pid : String) :
    lookup (incStock products items) pid
      = (lookup products pid).map
          (fun p => { p with stock := p.stock + (qtyTotal items pid : Int) }) := by
  induction items generalizing products with
  | nil => cases h : lookup products pid <;> simp [incStock, qtyTotal, h]
  | cons e rest ih =>
      obtain ⟨k, q⟩ := e
      simp only [incStock]
      rw [ih]
      cases hk : lookup products k with
      | none =>
          by_cases hkp : k = pid
          · subst hkp
            simp [hk, qtyTotal]
          · simp [qtyTotal, hkp]
      | some p =>
          by_cases hkp : k = pid
          · subst hkp
            simp [lookup_setKey_self, hk, qtyTotal, add_assoc, Nat.cast_add]
          · have hne : pid ≠ k := fun hh => hkp hh.symm
            simp [lookup_setKey_ne _ _ _ _ hne, qtyTotal, hkp]

/-- Effect of the reorder item-accumulation loop on a single cart entry:
a snapshot id that is still in the catalog is accumulated with its full
snapshot quantity; every other entry is untouched. -/
theorem lookup_addItems (items : Dict Nat) (products : Dict Product)
    (cart : Dict Nat) (pid : String) :
    lookup (addItems products cart items) pid
      = if (lookup products pid).isSome ∧ (lookup items pid).isSome then
          some ((lookup cart pid).getD 0 + qtyTotal items pid)
        else lookup cart pid := by
  induction items generalizing cart with
  | nil => simp [addItems, lookup]
  | cons e rest ih =>
      obtain ⟨k, q⟩ := e
      simp only [addItems]
      rw [ih]
      by_cases hkp : k = pid
      · subst hkp
        by_cases hp : (lookup products k).isSome
        · obtain ⟨p, hpv⟩ := Option.isSome_iff_exists.mp hp
          have hhas : hasKey products k = true := by simp [hasKey, hpv]
          cases hrest : lookup rest k with
          | none =>
              have hq0 : qtyTotal rest k = 0 := qtyTotal_eq_zero rest k hrest
              cases hc : lookup cart k with
              | none =>
                  simp [hhas, hc, lookup_setKey_self, hp, lookup, hrest,
                    qtyTotal, hq0]
              | some q0 =>
                  simp [hhas, hc, lookup_setKey_self, hp, lookup, hrest,
                    qtyTotal, hq0]
          | some qr =>
              cases hc : lookup cart k with
              | none =>
                  simp [hhas, hc, lookup_setKey_self, hp, lookup, hrest,
                    qtyTotal, Nat.add_assoc]
              | some q0 =>
                  simp [hhas, hc, lookup_setKey_self, hp, lookup, hrest,
                    qtyTotal, Nat.add_assoc]
        · have hhas : hasKey products k = false := by
            simp [hasKey]
            simpa using hp
          simp [hhas, hp, lookup]
      · have hne : pid ≠ k := fun hh => hkp hh.symm
        have hcart2 :
            lookup
              (if hasKey products k then
                 match lookup cart k with
                 | some q0 => setKey cart k (q0 + q)
                 | none => setKey cart k q
               else cart) pid = lookup cart pid := by
          by_cases hh : hasKey products k
          · cases hc : lookup cart k <;>
              simp [hh, hc, lookup_setKey_ne _ _ _ _ hne]
          · simp [hh]
        rw [hcart2]
        simp [lookup, hkp, qtyTotal]

/-- Cart entries whose product id is gone from the catalog contribute
nothing to the cart total. -/
theorem cartTotal_filter (products : Dict Product) (cart : Dict Nat) :
    cartTotal products cart
      = cartTotal products
          (cart.filter fun e => (lookup products e.1).isSome) := by
  induction cart with
  | nil => rfl
  | cons e rest ih =>
      obtain ⟨pid, q⟩ := e
      cases h : lookup products pid with
      | none => simp [cartTotal, h, List.filter_cons, ih]
      | some p => simp [cartTotal, h, List.filter_cons, ih]

theorem bootstrapOK_of_users_eq {s s2 : State} (h : s2.users = s.users)
    (hb : bootstrapOK s) : bootstrapOK s2 := by
  intro a ha
  rw [h] at ha
  exact hb a ha

theorem users_login (s : State) (e p : String) :
    (login s e p).users = s.users := by
  unfold login
  split <;> rfl

theorem users_addToCart (s : State) (pid : String) (q : Nat) :
    (addToCart s pid q).users = s.users := by
  unfold addToCart
  cases s.currentUser <;> rfl

theorem users_addToCartButton (s : State) (pid : String) (q : Nat)
    (s2 : State) (h : addToCartButton s pid q = Except.ok s2) :
    s2.users = s.users := by
  unfold addToCartButton at h
  repeat' split at h
  all_goals cases h
  exact users_addToCart s pid q

theorem users_removeFromCart (s : State) (pid : String) :
    (removeFromCart s pid).users = s.users := by
  unfold removeFromCart
  repeat' split
  all_goals rfl

theorem users_setCartQty (s : State) (pid : String) (q : Nat) :
    (setCartQty s pid q).users = s.users := by
  unfold setCartQty
  repeat' split
  all_goals rfl

theorem users_createOrder (s : State) (oid : String) (now : Nat) :
    ((createOrder s oid now).1).users = s.users := by
  unfold createOrder
  cases s.currentUser with
  | none => rfl
  | some u => by_cases hc : userCart s u = [] <;> simp [hc]

theorem users_updateOrderStatus (s : State) (oid : String) (ns : Status) :
    (updateOrderStatus s oid ns).users = s.users := by
  unfold updateOrderStatus
  split <;> rfl

theorem users_cancelOrder (s : State) (oid : String) :
    (cancelOrder s oid).users = s.users := by
  unfold cancelOrder
  split
  · rfl
  · split <;> rfl

theorem users_reorder (s : State) (oid : String) :
    (reorder s oid).users = s.users := by
  unfold reorder
  split <;> rfl

theorem users_updateStockButton (s : State) (pid : String) (n : Nat) :
    (updateStockButton s pid n).users = s.users := by
  unfold updateStockButton
  split <;> rfl

theorem users_addProduct (s : State) (nm : String) (price : ℚ)
    (cat desc : String) (stock : Nat) (img : String) (specs : List String) :
    (addProduct s nm price cat desc stock img specs).users = s.users := by
  unfold addProduct
  split <;> rfl

theorem users_deleteProduct (s : State) (pid : String) :
    (deleteProduct s pid).users = s.users := rfl

theorem bootstrapOK_registerUser (s : State) (now : Nat)
    (email pw nm : String) (h : bootstrapOK s) :
    bootstrapOK (registerUser s now email pw nm).1 := by
  unfold registerUser
  cases hl : lookup s.users email with
  | some a => exact h
  | none =>
      intro b hb2
      by_cases he : email = bootstrapEmail
      · subst he
        rw [lookup_setKey_self] at hb2
        injection hb2 with h2
        rw [← h2]
        simp
      · rw [lookup_setKey_ne _ _ _ _ (fun hh => he hh.symm)] at hb2
        exact h b hb2

theorem bootstrapOK_makeAdmin (s : State) (email : String)
    (h : bootstrapOK s) : bootstrapOK (makeAdmin s email) := by
  unfold makeAdmin
  cases hl : lookup s.users email with
  | none => exact h
  | some a =>
      intro b hb2
      by_cases he : email = bootstrapEmail
      · subst he
        rw [lookup_setKey_self] at hb2
        injection hb2 with h2
        rw [← h2]
      · rw [lookup_setKey_ne _ _ _ _ (fun hh => he hh.symm)] at hb2
        exact h b hb2

theorem bootstrapOK_removeAdmin (s : State) (email : String) (s2 : State)
    (h2 : removeAdmin s email = Except.ok s2) (h : bootstrapOK s) :
    bootstrapOK s2 := by
  unfold removeAdmin at h2
  by_cases he : email = bootstrapEmail
  · rw [if_pos he] at h2
    cases h2
  · rw [if_neg he] at h2
    cases hl : lookup s.users email with
    | none =>
        rw [hl] at h2
        cases h2
        exact h
    | some a =>
        rw [hl] at h2
        cases h2
        intro b hb2
        rw [lookup_setKey_ne _ _ _ _ (fun hh => he hh.symm)] at hb2
        exact h b hb2

/-- Every single operation preserves the bootstrap-admin property. -/
theorem bootstrapOK_applyOp (s : State) (op : Op) (h : bootstrapOK s) :
    bootstrapOK (applyOp s op) := by
  cases op with
  | register now email pw nm =>
      exact bootstrapOK_registerUser s now email pw nm h
  | login email pw =>
      exact bootstrapOK_of_users_eq (users_login s email pw) h
  | logout => exact h
  | addCart pid q =>
      simp only [applyOp]
      cases hab : addToCartButton s pid q with
      | ok s2 => exact bootstrapOK_of_users_eq (users_addToCartButton s pid q s2 hab) h
      | error e => exact h
  | removeCart pid =>
      exact bootstrapOK_of_users_eq (users_removeFromCart s pid) h
  | setQty pid q =>
      exact bootstrapOK_of_users_eq (users_setCartQty s pid q) h
  | checkout oid now =>
      exact bootstrapOK_of_users_eq (users_createOrder s oid now) h
  | setStatus oid ns =>
      simp only [applyOp]
      split
      · exact bootstrapOK_of_users_eq (users_updateOrderStatus s oid ns) h
      · exact h
  | cancel oid =>
      simp only [applyOp]
      split
      · exact bootstrapOK_of_users_eq (users_cancelOrder s oid) h
      · exact h
  | reorderOp oid =>
      exact bootstrapOK_of_users_eq (users_reorder s oid) h
  | adminStock pid n =>
      simp only [applyOp]
      split
      · exact bootstrapOK_of_users_eq (users_updateStockButton s pid n) h
      · exact h
  | adminCreate nm price cat desc stock img specs =>
      simp only [applyOp]
      split
      · exact bootstrapOK_of_users_eq (users_addProduct s nm price cat desc stock img specs) h
      · exact h
  | adminDelete pid =>
      simp only [applyOp]
      split
      · exact bootstrapOK_of_users_eq (users_deleteProduct s pid) h
      · exact h
  | adminGrant email =>
      simp only [applyOp]
      split
      · exact bootstrapOK_makeAdmin s email h
      · exact h
  | adminRevoke email =>
      simp only [applyOp]
      split
      · cases hr : removeAdmin s email with
        | ok s2 => exact bootstrapOK_removeAdmin s email s2 hr h
        | error e => exact h
      · exact h

/-- Checkout with a logged-in user and a non-empty cart: the snapshot order
is stored, the stock loop runs, and the cart is cleared. -/
theorem createOrder_eq (s : State) (u oid : String) (now : Nat)
    (hu : s.currentUser = some u) (hc : userCart s u ≠ []) :
    createOrder s oid now
      = ({ s with
            products := decStock s.products (userCart s u)
            orders := setKey s.orders oid (checkoutOrder s u oid now)
            carts := setKey s.carts u [] }, some oid) := by
  unfold createOrder
  simp only [hu]
  rw [if_neg hc]
  rfl

/-- Inversion: a checkout that returned an order id had a logged-in user
and a non-empty cart, and produced exactly the state of
`createOrder_eq`. -/
theorem createOrder_some (s : State) (oid oid2 : String) (now : Nat)
    (s1 : State) (h : createOrder s oid now = (s1, some oid2)) :
    ∃ u, s.currentUser = some u ∧ userCart s u ≠ [] ∧
      oid2 = oid ∧
      s1 = { s with
              products := decStock s.products (userCart s u)
              orders := setKey s.orders oid (checkoutOrder s u oid now)
              carts := setKey s.carts u [] } := by
  have hex : ∃ u, s.currentUser = some u := by
    cases hu : s.currentUser with
    | none =>
        unfold createOrder at h
        simp only [hu] at h
        have h2 := congrArg Prod.snd h
        simp at h2
    | some u => exact ⟨u, rfl⟩
  obtain ⟨u, hu⟩ := hex
  by_cases hc : userCart s u = []
  · exfalso
    unfold createOrder at h
    simp only [hu] at h
    rw [if_pos hc] at h
    have h2 := congrArg Prod.snd h
    simp at h2
  · rw [createOrder_eq s u oid now hu hc] at h
    injection h with h1 h2
    injection h2 with h3
    exact ⟨u, hu, hc, h3.symm, h1.symm⟩

/-- C1: the claim says checkout fails with InsufficientStock and changes
nothing when some cart quantity exceeds current stock.  The code has no
stock check at all: starting from a one-product store with stock 2, a
registered user accumulates 3 units in the cart (each add passing the
per-click check) and checks out; the checkout returns an order id, stores
a Pending order, drives the stock to -1 and clears the cart. -/
theorem c1_checkout_not_atomic :
    (lookup (run (shopStart 2) (checkoutTrace 2 1)).orders "ord1").map
        Order.status = some Status.Pending ∧
    (lookup (run (shopStart 2) (checkoutTrace 2 1)).products "P001").map
        Product.stock = some (-1) ∧
    userCart (run (shopStart 2) (checkoutTrace 2 1)) "u@example.com" = [] := by
  decide

/-- C2: the claim says stock is never negative and any operation that would
make it negative fails.  The checkout stock decrement has no bound check:
from stock 2, two adds of 2 units each pass the per-click check, and the
checkout leaves stock -2. -/
theorem c2_stock_goes_negative :
    (lookup (shopStart 2).products "P001").map Product.stock = some 2 ∧
    (lookup (run (shopStart 2) (checkoutTrace 2 2)).products "P001").map
        Product.stock = some (-2) ∧
    (-2 : Int) < 0 := by
  decide

/-- C3: the claim says original stock equals current stock plus the
non-cancelled order quantities after every checkout/status-update/cancel
sequence.  Setting an order's status to Cancelled through the status
selectbox does not restore stock: after checking out 3 of 5 units and then
updating the status to Cancelled, stock is 2 and no non-cancelled order
holds any units, so 2 + 0 differs from the original 5. -/
theorem c3_conservation_broken :
    (lookup (run (shopStart 5) conservationTrace).products "P001").map
        Product.stock = some 2 ∧
    nonCancelledQty (run (shopStart 5) conservationTrace).orders "P001" = 0 ∧
    ¬((2 : Int) + (0 : Int) = 5) := by
  decide

/-- C4: the claim says only immediate-successor transitions (or Cancelled
from Pending/Processing) are accepted and everything else fails with
InvalidTransition.  The status-update button stores any selected status:
an order walked to the terminal status Delivered is moved back to Pending
by one more status update. -/
theorem c4_backward_transition_accepted :
    (lookup (run (shopStart 5) progressTrace).orders "ord1").map
        Order.status = some Status.Delivered ∧
    (lookup (applyOp (run (shopStart 5) progressTrace)
        (Op.setStatus "ord1" Status.Pending)).orders "ord1").map
        Order.status = some Status.Pending := by
  decide

/-- C8: the claim says product creation always assigns a fresh id, also
after deletions.  The id is computed from the current product count, so
after deleting P002 from a three-product catalog the next creation
computes id P003, which still exists: the existing record is silently
overwritten and the catalog does not grow. -/
theorem c8_product_id_collision :
    hasKey (run adminShop [Op.adminDelete "P002"]).products
        (newProductId (run adminShop [Op.adminDelete "P002"]).products)
      = true ∧
    (lookup (run adminShop [Op.adminDelete "P002"]).products "P003").map
        Product.name = some "Thingamajig" ∧
    (lookup (run adminShop [Op.adminDelete "P002",
        Op.adminCreate "Gadget" 5 "Electronics" "A gadget." 7 "box" []]).products
        "P003").map Product.name = some "Gadget" ∧
    (run adminShop [Op.adminDelete "P002",
        Op.adminCreate "Gadget" 5 "Electronics" "A gadget." 7 "box" []]).products.length
      = 2 := by
  decide

/-- C5: cancelling a Pending or Processing order adds back exactly the
snapshot quantity of every item whose product id has catalog stock and
sets the status to Cancelled; and cancelling an order immediately after
its checkout restores every catalog record exactly to its pre-checkout
value. -/
theorem c5_cancel_restores_stock (s : State) (oid : String) (o : Order)
    (ho : lookup s.orders oid = some o)
    (hst : o.status = Status.Pending ∨ o.status = Status.Processing) :
    (∀ pid p, lookup s.products pid = some p →
        lookup (cancelOrder s oid).products pid
          = some { p with stock := p.stock + (qtyTotal o.items pid : Int) }) ∧
    (lookup (cancelOrder s oid).orders oid).map Order.status
      = some Status.Cancelled ∧
    (∀ s0 oid2 oid3 now s1, createOrder s0 oid2 now = (s1, some oid3) →
        ∀ pid p, lookup s0.products pid = some p →
          lookup (cancelOrder s1 oid2).products pid = some p) := by
  have hcan : cancelOrder s oid
      = { s with
          products := incStock s.products o.items
          orders := setKey s.orders oid { o with status := Status.Cancelled } } := by
    unfold cancelOrder
    simp only [ho]
    rw [if_pos hst]
  refine ⟨?_, ?_, ?_⟩
  · intro pid p hp
    rw [hcan]
    simp [lookup_incStock, hp]
  · rw [hcan]
    simp [lookup_setKey_self]
  · intro s0 oid2 oid3 now s1 hco pid p hp
    obtain ⟨u, hu, hc, hoid, hs1⟩ := createOrder_some s0 oid2 oid3 now s1 hco
    subst hs1
    have ho2 : lookup (setKey s0.orders oid2 (checkoutOrder s0 u oid2 now)) oid2
        = some (checkoutOrder s0 u oid2 now) := lookup_setKey_self _ _ _
    unfold cancelOrder
    simp only [ho2]
    have hpend : (checkoutOrder s0 u oid2 now).status = Status.Pending ∨
        (checkoutOrder s0 u oid2 now).status = Status.Processing := Or.inl rfl
    rw [if_pos hpend]
    simp only [checkoutOrder]
    rw [lookup_incStock, lookup_decStock, hp]
    simp [sub_add_cancel]

/-- C5 witness: cancelling the concrete pending three-unit order restores
the three units and marks the order Cancelled. -/
theorem c5_cancel_restores_stock_witness :
    lookup (cancelOrder c5State "ord1").products "P001"
      = some { widget 2 with
          stock := (widget 2).stock + (qtyTotal c5Order.items "P001" : Int) } ∧
    (lookup (cancelOrder c5State "ord1").orders "ord1").map Order.status
      = some Status.Cancelled := by
  have h := c5_cancel_restores_stock c5State "ord1" c5Order (by decide)
    (Or.inl rfl)
  exact ⟨h.1 "P001" (widget 2) (by decide), h.2.1⟩

/-- C6 counterexample: the claim concludes that a cart quantity never
exceeds the product's current stock at the time of the add.  With stock 5,
two adds of 3 units each pass the per-click check (which compares only the
clicked quantity against stock), leaving a cart entry of 6 while stock is
still 5. -/
theorem c6_cart_exceeds_stock :
    addToCartButton cartDemoStart "P001" 3
      = Except.ok (addToCart cartDemoStart "P001" 3) ∧
    addToCartButton (addToCart cartDemoStart "P001" 3) "P001" 3
      = Except.ok (addToCart (addToCart cartDemoStart "P001" 3) "P001" 3) ∧
    lookup (userCart (addToCart (addToCart cartDemoStart "P001" 3) "P001" 3)
        "u@example.com") "P001" = some 6 ∧
    (lookup (addToCart (addToCart cartDemoStart "P001" 3) "P001" 3).products
        "P001").map Product.stock = some 5 ∧
    ¬((6 : Int) ≤ 5) := by
  decide

/-- C6 amended: each single add through the product page is validated — no
card exists for an id outside the catalog, and a click whose quantity
exceeds current stock is rejected with an insufficient-stock error and no
state change — and a successful add increments any existing entry by the
clicked quantity (so accumulated cart quantity is not checked against
stock). -/
theorem c6_add_validation (s : State) (pid : String) (qty : Nat) :
    (lookup s.products pid = none →
        addToCartButton s pid qty = Except.error StoreError.NotFound) ∧
    (∀ p, lookup s.products pid = some p → s.currentUser ≠ none →
        p.stock < (qty : Int) →
        addToCartButton s pid qty = Except.error StoreError.InsufficientStock) ∧
    (∀ p u, lookup s.products pid = some p → s.currentUser = some u →
        (qty : Int) ≤ p.stock →
        addToCartButton s pid qty = Except.ok (addToCart s pid qty) ∧
        lookup (userCart (addToCart s pid qty) u) pid
          = some ((lookup (userCart s u) pid).getD 0 + qty)) := by
  refine ⟨?_, ?_, ?_⟩
  · intro h
    unfold addToCartButton
    simp only [h]
  · intro p hp hcu hlt
    unfold addToCartButton
    simp only [hp]
    cases hu : s.currentUser with
    | none => exact absurd hu hcu
    | some u => rw [if_neg (not_le.mpr hlt)]
  · intro p u hp hu hle
    constructor
    · unfold addToCartButton
      simp only [hp, hu]
      rw [if_pos hle]
    · unfold addToCart
      simp only [hu]
      cases hcq : lookup (userCart s u) pid with
      | none => simp [userCart, lookup_setKey_self, hcq]
      | some q => simp [userCart, lookup_setKey_self, hcq]

/-- C6 witness: with stock 5 and an empty cart, adding 3 units succeeds and
stores a quantity-3 entry. -/
theorem c6_add_validation_witness :
    addToCartButton cartDemoStart "P001" 3
      = Except.ok (addToCart cartDemoStart "P001" 3) ∧
    lookup (userCart (addToCart cartDemoStart "P001" 3) "u@example.com")
        "P001"
      = some ((lookup (userCart cartDemoStart "u@example.com") "P001").getD 0
          + 3) :=
  (c6_add_validation cartDemoStart "P001" 3).2.2 (widget 5) "u@example.com"
    (by decide) rfl (by decide)

/-- C7 counterexample: the claim says reorder goes through addItem
semantics and respects current stock.  Reordering a past five-unit order
against a product that now has two units in stock puts all five units in
the cart with no check. -/
theorem c7_reorder_ignores_stock :
    lookup (userCart (reorder reorderDemo "ord1") "u@example.com") "P001"
      = some 5 ∧
    (lookup (reorder reorderDemo "ord1").products "P001").map Product.stock
      = some 2 ∧
    ¬((5 : Int) ≤ 2) := by
  decide

/-- C7 amended: reorder adds, for each snapshot item whose product id is
still in the catalog, the full snapshot quantity to the requesting user's
cart (incrementing any existing entry) with no stock validation; snapshot
items whose product is gone are skipped. -/
theorem c7_reorder_adds_snapshot (s : State) (u oid : String) (o : Order)
    (hu : s.currentUser = some u) (ho : lookup s.orders oid = some o) :
    ∀ pid, lookup (userCart (reorder s oid) u) pid
      = if (lookup s.products pid).isSome ∧ (lookup o.items pid).isSome then
          some ((lookup (userCart s u) pid).getD 0 + qtyTotal o.items pid)
        else lookup (userCart s u) pid := by
  intro pid
  have hre : reorder s oid
      = { s with carts := setKey s.carts u (addItems s.products (userCart s u) o.items) } := by
    unfold reorder
    simp only [hu, ho]
  rw [hre]
  have hcart : userCart
      { s with carts := setKey s.carts u (addItems s.products (userCart s u) o.items) } u
      = addItems s.products (userCart s u) o.items := by
    simp [userCart, lookup_setKey_self]
  rw [hcart, lookup_addItems]

/-- C7 witness: in the concrete reorder scenario the snapshot quantity 5 is
added to the empty cart even though stock is 2. -/
theorem c7_reorder_adds_snapshot_witness :
    lookup (userCart (reorder reorderDemo "ord1") "u@example.com") "P001"
      = if (lookup reorderDemo.products "P001").isSome ∧
            (lookup (pastOrder "ord1" "u@example.com" [("P001", 5)] 50
                Status.Delivered).items "P001").isSome then
          some ((lookup (userCart reorderDemo "u@example.com") "P001").getD 0
            + qtyTotal (pastOrder "ord1" "u@example.com" [("P001", 5)] 50
                Status.Delivered).items "P001")
        else lookup (userCart reorderDemo "u@example.com") "P001" :=
  c7_reorder_adds_snapshot reorderDemo "u@example.com" "ord1"
    (pastOrder "ord1" "u@example.com" [("P001", 5)] 50 Status.Delivered)
    rfl (by decide) "P001"

/-- The bootstrap-admin property is preserved by every operation
sequence. -/
theorem bootstrapOK_run (s : State) (ops : List Op) :
    bootstrapOK s → bootstrapOK (run s ops) := by
  induction ops generalizing s with
  | nil => exact fun h => h
  | cons op rest ih =>
      exact fun h => ih (applyOp s op) (bootstrapOK_applyOp s op h)

/-- C9: the bootstrap address receives the admin flag at registration,
every attempt to revoke admin from it is refused with the protection
error, and in every state reached by any operation sequence the bootstrap
account, if registered, still holds the admin flag. -/
theorem c9_bootstrap_admin_permanent (s : State) (ops : List Op)
    (h : bootstrapOK s) :
    bootstrapOK (run s ops) ∧
    (∀ s2 now pw nm a, lookup s2.users bootstrapEmail = none →
        lookup ((registerUser s2 now bootstrapEmail pw nm).1).users
            bootstrapEmail = some a →
        a.isAdmin = true) ∧
    (∀ s2 : State, removeAdmin s2 bootstrapEmail
        = Except.error StoreError.Forbidden) := by
  refine ⟨bootstrapOK_run s ops h, ?_, ?_⟩
  · intro s2 now pw nm a hnone hsome
    have hvac : bootstrapOK s2 := by
      intro b hb
      rw [hnone] at hb
      cases hb
    exact bootstrapOK_registerUser s2 now bootstrapEmail pw nm hvac a hsome
  · intro s2
    unfold removeAdmin
    rw [if_pos rfl]

/-- C9 witness: from an empty store, registering the bootstrap address and
then attempting to revoke its admin flag leaves the property intact, and
the revoke attempt on any store is refused. -/
theorem c9_bootstrap_admin_permanent_witness :
    bootstrapOK (run emptyShop [Op.register 0 bootstrapEmail "root" "Root",
        Op.adminRevoke bootstrapEmail]) ∧
    removeAdmin emptyShop bootstrapEmail
      = Except.error StoreError.Forbidden := by
  have hb : bootstrapOK emptyShop := by
    intro a ha
    simp [emptyShop, lookup] at ha
  have h := c9_bootstrap_admin_permanent emptyShop
    [Op.register 0 bootstrapEmail "root" "Root",
     Op.adminRevoke bootstrapEmail] hb
  exact ⟨h.1, h.2.2 emptyShop⟩

/-- C10: a checkout from a non-empty cart succeeds even when some cart id
is no longer in the catalog: the whole cart (stale ids included) becomes
the order's item snapshot, the total prices only the entries whose product
is in the catalog, a stale id gains no catalog record, and each catalog
product's stock drops by exactly its cart quantity. -/
theorem c10_stale_cart_ids (s : State) (u oid : String) (now : Nat)
    (hu : s.currentUser = some u) (hne : userCart s u ≠ []) :
    (createOrder s oid now).2 = some oid ∧
    (lookup (createOrder s oid now).1.orders oid).map Order.items
      = some (userCart s u) ∧
    (lookup (createOrder s oid now).1.orders oid).map Order.total
      = some (cartTotal s.products
          ((userCart s u).filter fun en => (lookup s.products en.1).isSome)) ∧
    (∀ pid, lookup s.products pid = none →
        lookup (createOrder s oid now).1.products pid = none) ∧
    (∀ pid p, lookup s.products pid = some p →
        lookup (createOrder s oid now).1.products pid
          = some { p with stock := p.stock - (qtyTotal (userCart s u) pid : Int) }) := by
  rw [createOrder_eq s u oid now hu hne]
  refine ⟨rfl, ?_, ?_, ?_, ?_⟩
  · simp [lookup_setKey_self, checkoutOrder]
  · rw [lookup_setKey_self, ← cartTotal_filter]
    simp [checkoutOrder, calculateCartTotal, getUserCart, hu]
  · intro pid hp
    simp [lookup_decStock, hp]
  · intro pid p hp
    simp [lookup_decStock, hp]

/-- C10 witness: with a cart holding two units of P001 and four units of
the vanished id GONE, checkout returns the order id, snapshots the whole
cart, creates no record for GONE, and decrements P001 by two. -/
theorem c10_stale_cart_ids_witness :
    (createOrder staleCartShop "ord1" 0).2 = some "ord1" ∧
    (lookup (createOrder staleCartShop "ord1" 0).1.orders "ord1").map
        Order.items = some (userCart staleCartShop "u@example.com") ∧
    lookup (createOrder staleCartShop "ord1" 0).1.products "GONE" = none ∧
    lookup (createOrder staleCartShop "ord1" 0).1.products "P001"
      = some { widget 5 with
          stock := (widget 5).stock
            - (qtyTotal (userCart staleCartShop "u@example.com") "P001" : Int) } := by
  have h := c10_stale_cart_ids staleCartShop "u@example.com" "ord1" 0 rfl
    (by decide)
  exact ⟨h.1, h.2.1, h.2.2.2.1 "GONE" (by decide),
    h.2.2.2.2 "P001" (widget 5) (by decide)⟩

end TechMart
